import Mathlib

/-!
# Verification of the pause/resume orchestration subsystem

Shallow embedding of `src/deployment_action/pause_service.rs` and
`src/infrastructure_action/eks/cluster_pause.rs`.

Kubernetes API interaction is modelled by an explicit environment
(`KubeEnv`) supplying the results of each network call, and each embedded
function returns, besides its `Except` result, the list of API calls it
issued (`ApiCall`), in order.  Machine integers (`i32` status fields) are
modelled as `Int`, with the `usize as i32` cast written out explicitly.
The unbounded pod-polling loop, which in Rust runs until the enclosing
`tokio::time::timeout` cancels the future, is modelled with an explicit
fuel parameter bounding the number of polls.
-/

namespace Qovery

/-- The `usize as i32` cast of Rust: two's-complement wrap into `[-2^31, 2^31)`. -/
def i32ofUsize (n : Nat) : Int :=
  (((n : Int) + 2 ^ 31) % 2 ^ 32) - 2 ^ 31

/-- `K8sResourceType` from `src/deployment_action/mod.rs` (variants as matched in
`pause_service.rs`). -/
inductive K8sResourceType
  | StateFulSet
  | Deployment
  | CronJob
  | DaemonSet
  | Job
  deriving DecidableEq, Repr

/-- `kube::api::ObjectMeta`, restricted to the fields read by the code.
`nspace` embeds the Rust field `namespace` (a Lean keyword). -/
structure ObjectMeta where
  nspace : Option String
  name : Option String
  deriving DecidableEq, Repr

/-- `DeploymentStatus` (k8s_openapi): `ready_replicas` and `replicas` are
both `Option<i32>`. -/
structure DeploymentStatus where
  ready_replicas : Option Int
  replicas : Option Int
  deriving DecidableEq, Repr

/-- `StatefulSetStatus` (k8s_openapi): `ready_replicas` is `Option<i32>` but
`replicas` is a required `i32`. -/
structure StatefulSetStatus where
  ready_replicas : Option Int
  replicas : Int
  deriving DecidableEq, Repr

/-- `CronJobSpec`, restricted to the `suspend : Option<bool>` field. -/
structure CronJobSpec where
  suspend : Option Bool
  deriving DecidableEq, Repr

/-- `k8s_openapi::api::apps::v1::Deployment`, fields read by the code. -/
structure KDeployment where
  metadata : ObjectMeta
  status : Option DeploymentStatus
  deriving DecidableEq, Repr

/-- `k8s_openapi::api::apps::v1::StatefulSet`, fields read by the code. -/
structure KStatefulSet where
  metadata : ObjectMeta
  status : Option StatefulSetStatus
  deriving DecidableEq, Repr

/-- `k8s_openapi::api::batch::v1::CronJob`, fields read by the code. -/
structure KCronJob where
  metadata : ObjectMeta
  spec : Option CronJobSpec
  deriving DecidableEq, Repr

/-- A pod, as far as this subsystem observes it: the pause code only ever
takes the length of a pod list, and the API server filters by label. -/
structure KPod where
  name : String
  labels : List (String × String)
  deriving DecidableEq, Repr

/-- `has_deployment_ready_replicas` (pause_service.rs lines 17-25): the
condition closure receives `Option<&Deployment>` and compares
`status.ready_replicas.unwrap_or(0)` with `nb_ready_replicas as i32`. -/
def has_deployment_ready_replicas (nb_ready_replicas : Nat)
    (deployment : Option KDeployment) : Bool :=
  ((deployment.bind (·.status)).bind (·.ready_replicas)).getD 0
    == i32ofUsize nb_ready_replicas

/-- `has_statefulset_ready_replicas` (pause_service.rs lines 27-35). -/
def has_statefulset_ready_replicas (nb_ready_replicas : Nat)
    (statefulset : Option KStatefulSet) : Bool :=
  ((statefulset.bind (·.status)).bind (·.ready_replicas)).getD 0
    == i32ofUsize nb_ready_replicas

/-- `has_cron_job_suspended_value` (pause_service.rs lines 37-44): compares
`cron_job.spec.suspend` (an `Option`) against `Some(&suspend)`. -/
def has_cron_job_suspended_value (suspend : Bool) (cron_job : Option KCronJob) : Bool :=
  ((cron_job.bind (·.spec)).bind (·.suspend)) == some suspend

/-- `kube::api::ListParams`, restricted to the label selector set by
`ListParams::default().labels(selector)`. -/
structure ListParams where
  label_selector : Option String
  deriving DecidableEq, Repr

/-- `ListParams::default()`. -/
def ListParams.default : ListParams := { label_selector := none }

/-- `ListParams::labels`. -/
def ListParams.labels (lp : ListParams) (s : String) : ListParams :=
  { lp with label_selector := some s }

/-- `kube::api::PatchParams::default()` carries no information the code reads. -/
structure PatchParams where
  deriving DecidableEq, Repr

def PatchParams.default : PatchParams := {}

/-- `autoscaling::v1::ScaleSpec`. -/
structure ScaleSpec where
  replicas : Option Int
  deriving DecidableEq, Repr

/-- `autoscaling::v1::Scale`; the code builds it with default metadata and
`status: None`, neither of which carries information, so only `spec` is kept. -/
structure Scale where
  spec : Option ScaleSpec
  deriving DecidableEq, Repr

/-- `serde_json::Value`, restricted to the only constructor the code uses. -/
inductive JsonValue
  | bool (b : Bool)
  deriving DecidableEq, Repr

/-- A `json_patch::PatchOperation`; the code builds a single `Replace` at
pointer `["spec", "suspend"]`. -/
inductive JsonPatchOperation
  | replace (path : List String) (value : JsonValue)
  deriving DecidableEq, Repr

/-- `kube::api::Patch`, restricted to the two constructors the code uses. -/
inductive KubePatch
  | mergeScale (s : Scale)
  | json (ops : List JsonPatchOperation)
  deriving DecidableEq, Repr

/-- `get_patch_merge` (pause_service.rs lines 188-200). -/
def get_patch_merge (selector : String) (desired_size : Nat) :
    ListParams × PatchParams × KubePatch :=
  let list_params := ListParams.default.labels selector
  let patch_params := PatchParams.default
  let new_scale : Scale := { spec := some { replicas := some (i32ofUsize desired_size) } }
  let patch := KubePatch.mergeScale new_scale
  (list_params, patch_params, patch)

/-- `get_patch_suspend` (pause_service.rs lines 202-211). -/
def get_patch_suspend (selector : String) (desired_suspend_value : Bool) :
    ListParams × PatchParams × KubePatch :=
  let list_params := ListParams.default.labels selector
  let patch_params := PatchParams.default
  let json_patch := [JsonPatchOperation.replace ["spec", "suspend"]
    (JsonValue.bool desired_suspend_value)]
  let patch := KubePatch.json json_patch
  (list_params, patch_params, patch)

/-- `kube::Error`, abstracted to its display message (the only part read:
`kube_err.to_string()`). -/
structure KubeErr where
  msg : String
  deriving DecidableEq, Repr

/-- Whether an `Api` handle was built with `Api::all` or `Api::namespaced`. -/
inductive Scope
  | all
  | namespaced (ns : String)
  deriving DecidableEq, Repr

/-- One Kubernetes API call issued by the embedded code, in issuing order.
`awaitDeploymentReady ns name t` records
`await_condition(api, name, has_deployment_ready_replicas(t))`, and similarly
for the other await constructors. -/
inductive ApiCall
  | listStatefulSets (sc : Scope) (lp : ListParams)
  | listDeployments (sc : Scope) (lp : ListParams)
  | listCronJobs (sc : Scope) (lp : ListParams)
  | patchScaleStatefulSet (ns name : String) (patch : KubePatch)
  | patchScaleDeployment (ns name : String) (patch : KubePatch)
  | patchCronJob (ns name : String) (patch : KubePatch)
  | awaitStatefulSetReady (ns name : String) (target : Nat)
  | awaitDeploymentReady (ns name : String) (target : Nat)
  | awaitCronJobSuspended (ns name : String) (target : Bool)
  | listPods (sc : Scope) (lp : ListParams)
  deriving DecidableEq, Repr

/-- The Kubernetes side of the world: the result each API call would return.
`podsAt sc i` is the pod population in scope `sc` at the `i`-th poll of the
pod-wait loop (the API server then filters it by the label selector through
`selMatches`); `awaitCondResult ns name` is the outcome of the
`await_condition` future for that resource, whose value the code discards. -/
structure KubeEnv where
  listStatefulSets : Scope → ListParams → Except KubeErr (List KStatefulSet)
  listDeployments : Scope → ListParams → Except KubeErr (List KDeployment)
  listCronJobs : Scope → ListParams → Except KubeErr (List KCronJob)
  patchScaleStatefulSet : String → String → KubePatch → Except KubeErr Unit
  patchScaleDeployment : String → String → KubePatch → Except KubeErr Unit
  patchCronJob : String → String → KubePatch → Except KubeErr Unit
  awaitCondResult : String → String → Except Unit Unit
  selMatches : String → KPod → Bool
  podsAt : Scope → Nat → Except KubeErr (List KPod)

/-- Server-side behaviour of `pods.list(list_params)` at poll number `i`:
the current population, filtered by the label selector when one is set. -/
def listPodsModel (env : KubeEnv) (sc : Scope) (lp : ListParams) (i : Nat) :
    Except KubeErr (List KPod) :=
  match env.podsAt sc i with
  | .error e => .error e
  | .ok pods =>
    match lp.label_selector with
    | none => .ok pods
    | some s => .ok (pods.filter (env.selMatches s))

/-- How the `while let Ok(pod) = pods.list(...)` loop of
`wait_for_pods_to_be_in_correct_state` ended.  The Rust function returns `()`
in every case; this outcome is never visible to its caller. -/
inductive PodWaitOutcome
  | reached
  | stoppedOnError
  | outOfFuel
  deriving DecidableEq, Repr

/-- The polling loop body of `wait_for_pods_to_be_in_correct_state`
(pause_service.rs lines 227-233): list pods; on `Err` the `while let` exits;
on `Ok` break when the listed count equals `desired_size`, else sleep 10s and
poll again.  `i` numbers the poll, `fuel` bounds the number of polls modelled
(the sleep is a pure suspension point and is not represented). -/
def wait_go (env : KubeEnv) (sc : Scope) (desired_size : Nat) (lp : ListParams)
    (i fuel : Nat) : PodWaitOutcome × List ApiCall :=
  match fuel with
  | 0 => (.outOfFuel, [])
  | fuel' + 1 =>
    match listPodsModel env sc lp i with
    | .error _ => (.stoppedOnError, [.listPods sc lp])
    | .ok pods =>
      if pods.length == desired_size then (.reached, [.listPods sc lp])
      else
        let rest := wait_go env sc desired_size lp (i + 1) fuel'
        (rest.1, .listPods sc lp :: rest.2)

/-- `wait_for_pods_to_be_in_correct_state` (pause_service.rs lines 213-234).
Returns `()` in Rust; here the outcome is reported (and discarded by the
caller, mirroring the source). -/
def wait_for_pods_to_be_in_correct_state (env : KubeEnv) (nspace : String)
    (desired_size : Nat) (is_cluster_wide_resources_allowed : Bool)
    (list_params : ListParams) (fuel : Nat) : PodWaitOutcome × List ApiCall :=
  let pods_scope := if is_cluster_wide_resources_allowed then Scope.all
    else Scope.namespaced nspace
  wait_go env pods_scope desired_size list_params 0 fuel

/-- Loop body of the `StateFulSet` arm of `pause_service` (lines 65-71):
for each listed statefulset with a namespace and a name, `patch_scale` (the
`?` propagates its error), then `await_condition` with
`has_statefulset_ready_replicas(0)`, discarding the outcome (`let _ =`). -/
def scale_loop_statefulsets (env : KubeEnv) (patch : KubePatch)
    (items : List KStatefulSet) : Except KubeErr Unit × List ApiCall :=
  match items with
  | [] => (.ok (), [])
  | s :: rest =>
    match s.metadata.nspace, s.metadata.name with
    | some ns, some name =>
      match env.patchScaleStatefulSet ns name patch with
      | .error e => (.error e, [.patchScaleStatefulSet ns name patch])
      | .ok _ =>
        let _ := env.awaitCondResult ns name
        let next := scale_loop_statefulsets env patch rest
        (next.1, .patchScaleStatefulSet ns name patch
          :: .awaitStatefulSetReady ns name 0 :: next.2)
    | _, _ => scale_loop_statefulsets env patch rest

/-- Loop body of the `Deployment` arm of `pause_service` (lines 88-94):
patch the scale subresource, then `await_condition` with
`has_deployment_ready_replicas(0)`, discarding the outcome. -/
def scale_loop_deployments (env : KubeEnv) (patch : KubePatch)
    (items : List KDeployment) : Except KubeErr Unit × List ApiCall :=
  match items with
  | [] => (.ok (), [])
  | d :: rest =>
    match d.metadata.nspace, d.metadata.name with
    | some ns, some name =>
      match env.patchScaleDeployment ns name patch with
      | .error e => (.error e, [.patchScaleDeployment ns name patch])
      | .ok _ =>
        let _ := env.awaitCondResult ns name
        let next := scale_loop_deployments env patch rest
        (next.1, .patchScaleDeployment ns name patch
          :: .awaitDeploymentReady ns name 0 :: next.2)
    | _, _ => scale_loop_deployments env patch rest

/-- Loop body of the `CronJob` arm of `pause_service` (lines 111-118):
patch (JSON patch), then `await_condition` with
`has_cron_job_suspended_value(desired_size == 0)`, discarding the outcome. -/
def suspend_loop_cron_jobs (env : KubeEnv) (patch : KubePatch) (target : Bool)
    (items : List KCronJob) : Except KubeErr Unit × List ApiCall :=
  match items with
  | [] => (.ok (), [])
  | c :: rest =>
    match c.metadata.nspace, c.metadata.name with
    | some ns, some name =>
      match env.patchCronJob ns name patch with
      | .error e => (.error e, [.patchCronJob ns name patch])
      | .ok _ =>
        let _ := env.awaitCondResult ns name
        let next := suspend_loop_cron_jobs env patch target rest
        (next.1, .patchCronJob ns name patch
          :: .awaitCronJobSuspended ns name target :: next.2)
    | _, _ => suspend_loop_cron_jobs env patch target rest

/-- `pause_service` (pause_service.rs lines 46-125).  `fuel` bounds the
number of pod polls modelled for the final convergence loop; the value the
function returns when it returns is independent of it. -/
def pause_service (env : KubeEnv) (nspace : String) (selector : String)
    (desired_size : Nat) (k8s_resource_type : K8sResourceType)
    (is_cluster_wide_resources_allowed : Bool) (fuel : Nat) :
    Except KubeErr Unit × List ApiCall :=
  match k8s_resource_type with
  | .StateFulSet =>
    let (list_params, _patch_params, patch) := get_patch_merge selector desired_size
    let sc := if is_cluster_wide_resources_allowed then Scope.all
      else Scope.namespaced nspace
    match env.listStatefulSets sc list_params with
    | .error e => (.error e, [.listStatefulSets sc list_params])
    | .ok items =>
      let looped := scale_loop_statefulsets env patch items
      match looped.1 with
      | .error e => (.error e, .listStatefulSets sc list_params :: looped.2)
      | .ok _ =>
        let waited := wait_for_pods_to_be_in_correct_state env nspace desired_size
          is_cluster_wide_resources_allowed list_params fuel
        (.ok (), .listStatefulSets sc list_params :: looped.2 ++ waited.2)
  | .Deployment =>
    let (list_params, _patch_params, patch) := get_patch_merge selector desired_size
    let sc := if is_cluster_wide_resources_allowed then Scope.all
      else Scope.namespaced nspace
    match env.listDeployments sc list_params with
    | .error e => (.error e, [.listDeployments sc list_params])
    | .ok items =>
      let looped := scale_loop_deployments env patch items
      match looped.1 with
      | .error e => (.error e, .listDeployments sc list_params :: looped.2)
      | .ok _ =>
        let waited := wait_for_pods_to_be_in_correct_state env nspace desired_size
          is_cluster_wide_resources_allowed list_params fuel
        (.ok (), .listDeployments sc list_params :: looped.2 ++ waited.2)
  | .CronJob =>
    let (list_params, _patch_params, patch) := get_patch_suspend selector (desired_size == 0)
    let sc := if is_cluster_wide_resources_allowed then Scope.all
      else Scope.namespaced nspace
    match env.listCronJobs sc list_params with
    | .error e => (.error e, [.listCronJobs sc list_params])
    | .ok items =>
      let looped := suspend_loop_cron_jobs env patch (desired_size == 0) items
      (looped.1, .listCronJobs sc list_params :: looped.2)
  | .DaemonSet => (.ok (), [])
  | .Job => (.ok (), [])

/-- The observed-replica guard of the `StateFulSet` arm of
`unpause_service_if_needed` (line 143):
`statefulset.status.map(|s| s.replicas).unwrap_or(0) == 0`. -/
def statefulset_observed_replicas (s : KStatefulSet) : Int :=
  (s.status.map (·.replicas)).getD 0

/-- The observed-replica guard of the `Deployment` arm of
`unpause_service_if_needed` (line 159):
`deployment.status.and_then(|s| s.replicas).unwrap_or(0) == 0`. -/
def deployment_observed_replicas (d : KDeployment) : Int :=
  (d.status.bind (·.replicas)).getD 0

/-- Loop body of the `StateFulSet` arm of `unpause_service_if_needed`
(lines 142-149): patch only when the observed replica count is 0; no
`await_condition` in this path. -/
def unpause_loop_statefulsets (env : KubeEnv) (patch : KubePatch)
    (items : List KStatefulSet) : Except KubeErr Unit × List ApiCall :=
  match items with
  | [] => (.ok (), [])
  | s :: rest =>
    if statefulset_observed_replicas s == 0 then
      match s.metadata.nspace, s.metadata.name with
      | some ns, some name =>
        match env.patchScaleStatefulSet ns name patch with
        | .error e => (.error e, [.patchScaleStatefulSet ns name patch])
        | .ok _ =>
          let next := unpause_loop_statefulsets env patch rest
          (next.1, .patchScaleStatefulSet ns name patch :: next.2)
      | _, _ => unpause_loop_statefulsets env patch rest
    else unpause_loop_statefulsets env patch rest

/-- Loop body of the `Deployment` arm of `unpause_service_if_needed`
(lines 158-165). -/
def unpause_loop_deployments (env : KubeEnv) (patch : KubePatch)
    (items : List KDeployment) : Except KubeErr Unit × List ApiCall :=
  match items with
  | [] => (.ok (), [])
  | d :: rest =>
    if deployment_observed_replicas d == 0 then
      match d.metadata.nspace, d.metadata.name with
      | some ns, some name =>
        match env.patchScaleDeployment ns name patch with
        | .error e => (.error e, [.patchScaleDeployment ns name patch])
        | .ok _ =>
          let next := unpause_loop_deployments env patch rest
          (next.1, .patchScaleDeployment ns name patch :: next.2)
      | _, _ => unpause_loop_deployments env patch rest
    else unpause_loop_deployments env patch rest

/-- Loop body of the `CronJob` arm of `unpause_service_if_needed`
(lines 174-179): unconditional patch, no guard, no await. -/
def unsuspend_loop_cron_jobs (env : KubeEnv) (patch : KubePatch)
    (items : List KCronJob) : Except KubeErr Unit × List ApiCall :=
  match items with
  | [] => (.ok (), [])
  | c :: rest =>
    match c.metadata.nspace, c.metadata.name with
    | some ns, some name =>
      match env.patchCronJob ns name patch with
      | .error e => (.error e, [.patchCronJob ns name patch])
      | .ok _ =>
        let next := unsuspend_loop_cron_jobs env patch rest
        (next.1, .patchCronJob ns name patch :: next.2)
    | _, _ => unsuspend_loop_cron_jobs env patch rest

/-- `unpause_service_if_needed` (pause_service.rs lines 127-186). -/
def unpause_service_if_needed (env : KubeEnv) (nspace : String) (selector : String)
    (k8s_resource_type : K8sResourceType) (is_cluster_wide_resources_allowed : Bool) :
    Except KubeErr Unit × List ApiCall :=
  match k8s_resource_type with
  | .StateFulSet =>
    let (list_params, _patch_params, patch) := get_patch_merge selector 1
    let sc := if is_cluster_wide_resources_allowed then Scope.all
      else Scope.namespaced nspace
    match env.listStatefulSets sc list_params with
    | .error e => (.error e, [.listStatefulSets sc list_params])
    | .ok items =>
      let looped := unpause_loop_statefulsets env patch items
      (looped.1, .listStatefulSets sc list_params :: looped.2)
  | .Deployment =>
    let (list_params, _patch_params, patch) := get_patch_merge selector 1
    let sc := if is_cluster_wide_resources_allowed then Scope.all
      else Scope.namespaced nspace
    match env.listDeployments sc list_params with
    | .error e => (.error e, [.listDeployments sc list_params])
    | .ok items =>
      let looped := unpause_loop_deployments env patch items
      (looped.1, .listDeployments sc list_params :: looped.2)
  | .CronJob =>
    let (list_params, _patch_params, patch) := get_patch_suspend selector false
    let sc := if is_cluster_wide_resources_allowed then Scope.all
      else Scope.namespaced nspace
    match env.listCronJobs sc list_params with
    | .error e => (.error e, [.listCronJobs sc list_params])
    | .ok items =>
      let looped := unsuspend_loop_cron_jobs env patch items
      (looped.1, .listCronJobs sc list_params :: looped.2)
  | .DaemonSet => (.ok (), [])
  | .Job => (.ok (), [])

/-- The `EngineError` produced by `EngineError::new_k8s_scale_replicas`,
restricted to the fields `on_pause` fills: the selector, the target
namespace, the requested replica count (always 0 there) and the
`CommandError` safe message.  `event_details` carries no information the
claims mention and is omitted. -/
structure EngineError where
  selector : String
  target_namespace : String
  requested_replicas : Nat
  message : String
  deriving DecidableEq, Repr

/-- `EngineError::new_k8s_scale_replicas(event_details, selector, namespace,
replicas, command_error)`. -/
def new_k8s_scale_replicas (selector target_namespace : String)
    (requested_replicas : Nat) (message : String) : EngineError :=
  { selector := selector, target_namespace := target_namespace,
    requested_replicas := requested_replicas, message := message }

/-- `PauseServiceAction` (pause_service.rs lines 236-242).  `timeout` is a
`Duration`; only whole seconds are observable (`timeout.as_secs()` in the
error message), so it is modelled as its second count. -/
structure PauseServiceAction where
  selector : String
  k8s_resource_type : K8sResourceType
  timeout_secs : Nat
  is_cluster_wide_resources_allowed : Bool
  deriving DecidableEq, Repr

/-- The outcome of `tokio::time::timeout(self.timeout, fut)`: either the
future completed within the deadline, or the deadline fired while it was in
flight, after it had issued `calls_before_deadline` of its API calls (the
abandoned future issues a prefix of the calls it would have issued). -/
inductive TimeoutOutcome
  | completed
  | timedOut (calls_before_deadline : Nat)
  deriving DecidableEq, Repr

/-- `PauseServiceAction::on_pause` (pause_service.rs lines 329-375): run
`pause_service` with desired size 0 under `self.timeout`; on an inner
`kube::Error`, wrap it with `new_k8s_scale_replicas`; on timeout, return
`new_k8s_scale_replicas` with the formatted timeout message.  The trace is
the calls actually issued before the outcome was reached. -/
def PauseServiceAction.on_pause (a : PauseServiceAction) (env : KubeEnv)
    (target_namespace : String) (fuel : Nat) (outcome : TimeoutOutcome) :
    Except EngineError Unit × List ApiCall :=
  let run := pause_service env target_namespace a.selector 0 a.k8s_resource_type
    a.is_cluster_wide_resources_allowed fuel
  match outcome with
  | .completed =>
    match run.1 with
    | .ok _ => (.ok (), run.2)
    | .error kube_err =>
      (.error (new_k8s_scale_replicas a.selector target_namespace 0 kube_err.msg),
        run.2)
  | .timedOut k =>
    (.error (new_k8s_scale_replicas a.selector target_namespace 0
      ("Timeout of " ++ toString a.timeout_secs
        ++ "s exceeded while scaling down service")),
      run.2.take k)

/-- One step of `pause_eks_cluster` as recorded in its collaborator-call
trace. `renderPausedTeraContext t` covers the `eks_tera_context` render with
the computed timeout `t` followed by the
`tera_context.insert("eks_worker_nodes", vec![])` overwrite; `tfPause ts` is
`TerraformInfraResources::pause(ts)`. -/
inductive EksStep
  | karpenterPause
  | getRusotoEksClient
  | shouldUpdateDesiredNodes
  | getPods
  | defineClusterUpgradeTimeout (pods_count : Nat)
  | renderPausedTeraContext (timeout_min : Nat)
  | tfPause (targets : List String)
  deriving DecidableEq, Repr

/-- Collaborators of `pause_eks_cluster` (cluster_pause.rs), each abstracted
to the result it returns; errors are abstracted to their display string.
`should_update_desired_nodes` receives whether an EKS client was obtained
(the `Option` built on lines 35-38); `define_cluster_upgrade_timeout` is the
pod-population timeout policy (external collaborator, `eks/utils`). -/
structure EksEnv where
  mk_kube_client : Except String Unit
  karpenter_pause : Except String Unit
  get_rusoto_eks_client : Except String Unit
  should_update_desired_nodes : Bool → Except String Unit
  get_pods : Except String (List KPod)
  define_cluster_upgrade_timeout : List KPod → Nat × Option String
  eks_tera_context : Nat → Except String Unit
  tf_pause : List String → Except String Unit

/-- The `aws_eks_client` binding of `pause_eks_cluster` (cluster_pause.rs
lines 35-38): `Ok(value) => Some(value), Err(_) => None`, abstracted to
whether a client was obtained. -/
def eks_client_available (env : EksEnv) : Bool :=
  match env.get_rusoto_eks_client with
  | .ok _ => true
  | .error _ => false

/-- The `pods_list` binding of `pause_eks_cluster` (cluster_pause.rs lines
49-50): `block_on(kube_client.get_pods(...)).unwrap_or(Vec::with_capacity(0))`. -/
def eks_pods_list (env : EksEnv) : List KPod :=
  match env.get_pods with
  | .ok l => l
  | .error _ => []

/-- `pause_eks_cluster` (cluster_pause.rs lines 18-87).  The first argument
is `kubernetes.is_karpenter_enabled()`.  The trace lists collaborator calls
in order; pure logging is not represented. -/
def pause_eks_cluster (is_karpenter_enabled : Bool) (env : EksEnv) :
    Except String Unit × List EksStep :=
  match env.mk_kube_client with
  | .error e => (.error e, [])
  | .ok _ =>
    if is_karpenter_enabled then
      match env.karpenter_pause with
      | .error e => (.error e, [.karpenterPause])
      | .ok _ => (.ok (), [.karpenterPause])
    else
      match env.should_update_desired_nodes (eks_client_available env) with
      | .error e => (.error e, [.getRusotoEksClient, .shouldUpdateDesiredNodes])
      | .ok _ =>
        let pods_list := eks_pods_list env
        let derived := env.define_cluster_upgrade_timeout pods_list
        let cluster_upgrade_timeout_in_min := derived.1
        let steps₀ : List EksStep := [.getRusotoEksClient, .shouldUpdateDesiredNodes,
          .getPods, .defineClusterUpgradeTimeout pods_list.length]
        match env.eks_tera_context cluster_upgrade_timeout_in_min with
        | .error e =>
          (.error e, steps₀ ++ [.renderPausedTeraContext cluster_upgrade_timeout_in_min])
        | .ok _ =>
          let steps₁ := steps₀ ++ [.renderPausedTeraContext cluster_upgrade_timeout_in_min]
          match env.tf_pause ["aws_eks_node_group."] with
          | .error e => (.error e, steps₁ ++ [.tfPause ["aws_eks_node_group."]])
          | .ok _ => (.ok (), steps₁ ++ [.tfPause ["aws_eks_node_group."]])

/-! ## Concrete test fixtures

Small closed environments used to evaluate the embedded functions on
concrete inputs. -/

/-- A pod carrying the label of `depZero`. -/
def podA : KPod := { name := "pod-a", labels := [("app", "app0")] }

/-- A deployment whose status reports 0 replicas. -/
def depZero : KDeployment :=
  { metadata := { nspace := some "ns", name := some "app0" },
    status := some { ready_replicas := some 0, replicas := some 0 } }

/-- A deployment whose status reports 2 replicas (already running). -/
def depTwo : KDeployment :=
  { metadata := { nspace := some "ns", name := some "app2" },
    status := some { ready_replicas := some 2, replicas := some 2 } }

/-- A deployment whose status reports 1 replica. -/
def depOne : KDeployment :=
  { metadata := { nspace := some "ns", name := some "app" },
    status := some { ready_replicas := some 1, replicas := some 1 } }

/-- A statefulset whose status reports 0 replicas. -/
def stsZero : KStatefulSet :=
  { metadata := { nspace := some "ns", name := some "sts0" },
    status := some { ready_replicas := some 0, replicas := 0 } }

/-- A cron job whose `spec.suspend` field is absent. -/
def cronJobNoSuspendField : KCronJob :=
  { metadata := { nspace := some "ns", name := some "cj" },
    spec := some { suspend := none } }

/-- Cluster with no resources: every list succeeds and is empty, every patch
succeeds. -/
def envA : KubeEnv :=
  { listStatefulSets := fun _ _ => .ok []
    listDeployments := fun _ _ => .ok []
    listCronJobs := fun _ _ => .ok []
    patchScaleStatefulSet := fun _ _ _ => .ok ()
    patchScaleDeployment := fun _ _ _ => .ok ()
    patchCronJob := fun _ _ _ => .ok ()
    awaitCondResult := fun _ _ => .ok ()
    selMatches := fun _ _ => true
    podsAt := fun _ _ => .ok [] }

/-- Cluster holding one scaled-to-zero deployment, one running deployment
and one scaled-to-zero statefulset. -/
def envScaled : KubeEnv :=
  { envA with
    listDeployments := fun _ _ => .ok [depZero, depTwo]
    listStatefulSets := fun _ _ => .ok [stsZero] }

/-- Cluster holding one deployment at 1 replica, with one matching pod. -/
def envOneDep : KubeEnv :=
  { envA with
    listDeployments := fun _ _ => .ok [depOne]
    podsAt := fun _ _ => .ok [podA] }

/-- Cluster where every pod list call fails. -/
def envPodsFail : KubeEnv :=
  { envA with podsAt := fun _ _ => .error { msg := "pod list failed" } }

/-- EKS collaborators that all succeed. -/
def eksEnvOk : EksEnv :=
  { mk_kube_client := .ok ()
    karpenter_pause := .ok ()
    get_rusoto_eks_client := .ok ()
    should_update_desired_nodes := fun _ => .ok ()
    get_pods := .ok []
    define_cluster_upgrade_timeout := fun pods => (pods.length + 30, none)
    eks_tera_context := fun _ => .ok ()
    tf_pause := fun _ => .ok () }

/-- EKS collaborators where both best-effort operations fail: the EKS client
cannot be built and the cluster-wide pod listing errors. -/
def eksEnvBestEffort : EksEnv :=
  { eksEnvOk with
    get_rusoto_eks_client := .error "cannot build eks client"
    get_pods := .error "pod listing failed" }

/-- The `PauseServiceAction` used for concrete evaluation. -/
def pauseActionFix : PauseServiceAction :=
  { selector := "sel", k8s_resource_type := .Deployment, timeout_secs := 7,
    is_cluster_wide_resources_allowed := false }

/-- A pod named after the selector it should match. -/
def podSel : KPod := { name := "sel", labels := [] }

/-- A pod that matches no selector of `envMatcher`. -/
def podOther : KPod := { name := "other", labels := [] }

/-- Cluster whose selector semantics match a pod by name, holding one
matching and one non-matching pod. -/
def envMatcher : KubeEnv :=
  { envA with
    listDeployments := fun _ _ => .ok [depOne]
    selMatches := fun s p => p.name == s
    podsAt := fun _ _ => .ok [podSel, podOther] }

/-- The pod population of `envMatcher` with the non-matching pod removed. -/
def podsOnlySel : Scope → Nat → Except KubeErr (List KPod) :=
  fun _ _ => .ok [podSel]

/-! ## Helper lemmas -/

/-- Every call issued by the pause loop over deployments is either a scale
patch carrying exactly the loop's patch, or an `await_condition` with ready
target 0. -/
theorem scale_loop_deployments_calls (env : KubeEnv) (patch : KubePatch)
    (items : List KDeployment) :
    ∀ c ∈ (scale_loop_deployments env patch items).2,
      (∃ ns name, c = .patchScaleDeployment ns name patch) ∨
      (∃ ns name, c = .awaitDeploymentReady ns name 0) := by
  induction items with
  | nil => intro c hc; simp [scale_loop_deployments] at hc
  | cons d rest ih =>
    intro c hc
    unfold scale_loop_deployments at hc
    split at hc
    · rename_i ns name _ _
      split at hc
      · simp only [List.mem_singleton] at hc
        exact Or.inl ⟨ns, name, hc⟩
      · simp only [List.mem_cons] at hc
        rcases hc with h | h | h
        · exact Or.inl ⟨ns, name, h⟩
        · exact Or.inr ⟨ns, name, h⟩
        · exact ih c h
    · exact ih c hc

/-- Every call issued by the pause loop over statefulsets is either a scale
patch carrying exactly the loop's patch, or an `await_condition` with ready
target 0. -/
theorem scale_loop_statefulsets_calls (env : KubeEnv) (patch : KubePatch)
    (items : List KStatefulSet) :
    ∀ c ∈ (scale_loop_statefulsets env patch items).2,
      (∃ ns name, c = .patchScaleStatefulSet ns name patch) ∨
      (∃ ns name, c = .awaitStatefulSetReady ns name 0) := by
  induction items with
  | nil => intro c hc; simp [scale_loop_statefulsets] at hc
  | cons s rest ih =>
    intro c hc
    unfold scale_loop_statefulsets at hc
    split at hc
    · rename_i ns name _ _
      split at hc
      · simp only [List.mem_singleton] at hc
        exact Or.inl ⟨ns, name, hc⟩
      · simp only [List.mem_cons] at hc
        rcases hc with h | h | h
        · exact Or.inl ⟨ns, name, h⟩
        · exact Or.inr ⟨ns, name, h⟩
        · exact ih c h
    · exact ih c hc

/-- Every call issued by the resume loop over deployments is a scale patch,
carrying exactly the loop's patch, aimed at a listed deployment whose
observed replica count is 0. -/
theorem unpause_loop_deployments_mem (env : KubeEnv) (patch : KubePatch)
    (items : List KDeployment) :
    ∀ c ∈ (unpause_loop_deployments env patch items).2,
      ∃ d ∈ items, deployment_observed_replicas d = 0 ∧
        ∃ ns name, d.metadata.nspace = some ns ∧ d.metadata.name = some name ∧
          c = .patchScaleDeployment ns name patch := by
  induction items with
  | nil => intro c hc; simp [unpause_loop_deployments] at hc
  | cons d rest ih =>
    intro c hc
    unfold unpause_loop_deployments at hc
    by_cases hg : deployment_observed_replicas d == 0
    · rw [if_pos hg] at hc
      have hg' : deployment_observed_replicas d = 0 := eq_of_beq hg
      split at hc
      · rename_i ns name hns hn
        split at hc
        · simp only [List.mem_singleton] at hc
          exact ⟨d, List.mem_cons_self _ _, hg', ns, name, hns, hn, hc⟩
        · simp only [List.mem_cons] at hc
          rcases hc with h | h
          · exact ⟨d, List.mem_cons_self _ _, hg', ns, name, hns, hn, h⟩
          · obtain ⟨d', hd', hrest⟩ := ih c h
            exact ⟨d', List.mem_cons_of_mem _ hd', hrest⟩
      · obtain ⟨d', hd', hrest⟩ := ih c hc
        exact ⟨d', List.mem_cons_of_mem _ hd', hrest⟩
    · rw [if_neg hg] at hc
      obtain ⟨d', hd', hrest⟩ := ih c hc
      exact ⟨d', List.mem_cons_of_mem _ hd', hrest⟩

/-- Every call issued by the resume loop over statefulsets is a scale patch,
carrying exactly the loop's patch, aimed at a listed statefulset whose
observed replica count is 0. -/
theorem unpause_loop_statefulsets_mem (env : KubeEnv) (patch : KubePatch)
    (items : List KStatefulSet) :
    ∀ c ∈ (unpause_loop_statefulsets env patch items).2,
      ∃ s ∈ items, statefulset_observed_replicas s = 0 ∧
        ∃ ns name, s.metadata.nspace = some ns ∧ s.metadata.name = some name ∧
          c = .patchScaleStatefulSet ns name patch := by
  induction items with
  | nil => intro c hc; simp [unpause_loop_statefulsets] at hc
  | cons s rest ih =>
    intro c hc
    unfold unpause_loop_statefulsets at hc
    by_cases hg : statefulset_observed_replicas s == 0
    · rw [if_pos hg] at hc
      have hg' : statefulset_observed_replicas s = 0 := eq_of_beq hg
      split at hc
      · rename_i ns name hns hn
        split at hc
        · simp only [List.mem_singleton] at hc
          exact ⟨s, List.mem_cons_self _ _, hg', ns, name, hns, hn, hc⟩
        · simp only [List.mem_cons] at hc
          rcases hc with h | h
          · exact ⟨s, List.mem_cons_self _ _, hg', ns, name, hns, hn, h⟩
          · obtain ⟨s', hs', hrest⟩ := ih c h
            exact ⟨s', List.mem_cons_of_mem _ hs', hrest⟩
      · obtain ⟨s', hs', hrest⟩ := ih c hc
        exact ⟨s', List.mem_cons_of_mem _ hs', hrest⟩
    · rw [if_neg hg] at hc
      obtain ⟨s', hs', hrest⟩ := ih c hc
      exact ⟨s', List.mem_cons_of_mem _ hs', hrest⟩

/-- Every call issued by the pod-wait loop is a pod list at the loop's scope
and list params. -/
theorem wait_go_calls (env : KubeEnv) (sc : Scope) (desired_size : Nat)
    (lp : ListParams) :
    ∀ i fuel, ∀ c ∈ (wait_go env sc desired_size lp i fuel).2, c = .listPods sc lp := by
  intro i fuel
  induction fuel generalizing i with
  | zero => intro c hc; simp [wait_go] at hc
  | succ fuel ih =>
    intro c hc
    unfold wait_go at hc
    split at hc
    · simp only [List.mem_singleton] at hc; exact hc
    · split at hc
      · simp only [List.mem_singleton] at hc; exact hc
      · simp only [List.mem_cons] at hc
        rcases hc with h | h
        · exact h
        · exact ih (i + 1) c h

/-- The pod-wait loop only consults `listPodsModel`: two environments whose
pod listings agree at the loop's scope and list params drive it identically. -/
theorem wait_go_congr (env env' : KubeEnv) (sc : Scope) (desired_size : Nat)
    (lp : ListParams)
    (h : ∀ j, listPodsModel env' sc lp j = listPodsModel env sc lp j) :
    ∀ i fuel, wait_go env' sc desired_size lp i fuel
      = wait_go env sc desired_size lp i fuel := by
  intro i fuel
  induction fuel generalizing i with
  | zero => rfl
  | succ fuel ih =>
    unfold wait_go
    rw [h i]
    cases hm : listPodsModel env sc lp i with
    | error e => rfl
    | ok pods =>
      simp only []
      by_cases hl : pods.length == desired_size
      · simp [hl]
      · simp [hl, ih (i + 1)]

/-- The pause loop over deployments only consults `patchScaleDeployment`
(the `await_condition` result it reads is discarded): environments agreeing
on that field drive it identically. -/
theorem scale_loop_deployments_congr (env env' : KubeEnv) (patch : KubePatch)
    (h : env'.patchScaleDeployment = env.patchScaleDeployment) :
    ∀ items, scale_loop_deployments env' patch items
      = scale_loop_deployments env patch items := by
  intro items
  induction items with
  | nil => rfl
  | cons d rest ih =>
    unfold scale_loop_deployments
    rw [h, ih]

/-- The pause loop over statefulsets only consults `patchScaleStatefulSet`. -/
theorem scale_loop_statefulsets_congr (env env' : KubeEnv) (patch : KubePatch)
    (h : env'.patchScaleStatefulSet = env.patchScaleStatefulSet) :
    ∀ items, scale_loop_statefulsets env' patch items
      = scale_loop_statefulsets env patch items := by
  intro items
  induction items with
  | nil => rfl
  | cons s rest ih =>
    unfold scale_loop_statefulsets
    rw [h, ih]

/-- The result component of `pause_service` on the `Deployment` arm is
decided by the list call and the patch loop alone; the pod-wait loop never
contributes to it. -/
theorem pause_service_fst_deployment (env : KubeEnv) (ns sel : String) (n : Nat)
    (cw : Bool) (fuel : Nat) :
    (pause_service env ns sel n .Deployment cw fuel).1 =
      (match env.listDeployments (if cw then Scope.all else Scope.namespaced ns)
          { label_selector := some sel } with
       | .error e => .error e
       | .ok items =>
         (scale_loop_deployments env
           (KubePatch.mergeScale { spec := some { replicas := some (i32ofUsize n) } })
           items).1) := by
  unfold pause_service
  simp only [get_patch_merge, ListParams.default, ListParams.labels]
  cases env.listDeployments (if cw then Scope.all else Scope.namespaced ns)
      { label_selector := some sel } with
  | error e => rfl
  | ok items =>
    cases h : (scale_loop_deployments env
        (KubePatch.mergeScale { spec := some { replicas := some (i32ofUsize n) } })
        items).1 with
    | error e => simp [h]
    | ok u => simp [h]

/-- The result component of `pause_service` on the `StateFulSet` arm is
decided by the list call and the patch loop alone. -/
theorem pause_service_fst_statefulset (env : KubeEnv) (ns sel : String) (n : Nat)
    (cw : Bool) (fuel : Nat) :
    (pause_service env ns sel n .StateFulSet cw fuel).1 =
      (match env.listStatefulSets (if cw then Scope.all else Scope.namespaced ns)
          { label_selector := some sel } with
       | .error e => .error e
       | .ok items =>
         (scale_loop_statefulsets env
           (KubePatch.mergeScale { spec := some { replicas := some (i32ofUsize n) } })
           items).1) := by
  unfold pause_service
  simp only [get_patch_merge, ListParams.default, ListParams.labels]
  cases env.listStatefulSets (if cw then Scope.all else Scope.namespaced ns)
      { label_selector := some sel } with
  | error e => rfl
  | ok items =>
    cases h : (scale_loop_statefulsets env
        (KubePatch.mergeScale { spec := some { replicas := some (i32ofUsize n) } })
        items).1 with
    | error e => simp [h]
    | ok u => simp [h]

/-- Full congruence for the `Deployment` arm of `pause_service`: the call
only consults the deployment list, the deployment scale patch and the pod
listing.  In particular the `await_condition` outcomes are irrelevant. -/
theorem pause_service_deployment_congr (env env' : KubeEnv) (ns sel : String)
    (n : Nat) (cw : Bool) (fuel : Nat)
    (hlist : env'.listDeployments = env.listDeployments)
    (hpatch : env'.patchScaleDeployment = env.patchScaleDeployment)
    (hpods : ∀ j, listPodsModel env' (if cw then Scope.all else Scope.namespaced ns)
        { label_selector := some sel } j
      = listPodsModel env (if cw then Scope.all else Scope.namespaced ns)
        { label_selector := some sel } j) :
    pause_service env' ns sel n .Deployment cw fuel
      = pause_service env ns sel n .Deployment cw fuel := by
  unfold pause_service
  simp only [get_patch_merge, ListParams.default, ListParams.labels]
  rw [hlist]
  cases hm : env.listDeployments (if cw then Scope.all else Scope.namespaced ns)
      { label_selector := some sel } with
  | error e => rfl
  | ok items =>
    simp only []
    rw [scale_loop_deployments_congr env env' _ hpatch items]
    unfold wait_for_pods_to_be_in_correct_state
    rw [wait_go_congr env env' _ n _ hpods 0 fuel]

/-- Full congruence for the `StateFulSet` arm of `pause_service`. -/
theorem pause_service_statefulset_congr (env env' : KubeEnv) (ns sel : String)
    (n : Nat) (cw : Bool) (fuel : Nat)
    (hlist : env'.listStatefulSets = env.listStatefulSets)
    (hpatch : env'.patchScaleStatefulSet = env.patchScaleStatefulSet)
    (hpods : ∀ j, listPodsModel env' (if cw then Scope.all else Scope.namespaced ns)
        { label_selector := some sel } j
      = listPodsModel env (if cw then Scope.all else Scope.namespaced ns)
        { label_selector := some sel } j) :
    pause_service env' ns sel n .StateFulSet cw fuel
      = pause_service env ns sel n .StateFulSet cw fuel := by
  unfold pause_service
  simp only [get_patch_merge, ListParams.default, ListParams.labels]
  rw [hlist]
  cases hm : env.listStatefulSets (if cw then Scope.all else Scope.namespaced ns)
      { label_selector := some sel } with
  | error e => rfl
  | ok items =>
    simp only []
    rw [scale_loop_statefulsets_congr env env' _ hpatch items]
    unfold wait_for_pods_to_be_in_correct_state
    rw [wait_go_congr env env' _ n _ hpods 0 fuel]

/-- Description of every call in the trace of the `Deployment` arm of
`pause_service`: the initial list, scale patches carrying the built merge
patch, awaits with ready target 0, and pod polls at the computed scope and
list params. -/
theorem pause_deployment_trace_mem (env : KubeEnv) (ns sel : String) (n : Nat)
    (cw : Bool) (fuel : Nat) :
    ∀ c ∈ (pause_service env ns sel n .Deployment cw fuel).2,
      c = .listDeployments (if cw then Scope.all else Scope.namespaced ns)
            { label_selector := some sel } ∨
      (∃ ns1 name1, c = .patchScaleDeployment ns1 name1
          (KubePatch.mergeScale { spec := some { replicas := some (i32ofUsize n) } })) ∨
      (∃ ns1 name1, c = .awaitDeploymentReady ns1 name1 0) ∨
      c = .listPods (if cw then Scope.all else Scope.namespaced ns)
            { label_selector := some sel } := by
  intro c hc
  unfold pause_service at hc
  simp only [get_patch_merge, ListParams.default, ListParams.labels] at hc
  cases hm : env.listDeployments (if cw then Scope.all else Scope.namespaced ns)
      { label_selector := some sel } with
  | error e =>
    rw [hm] at hc
    simp only [List.mem_singleton] at hc
    exact Or.inl hc
  | ok items =>
    rw [hm] at hc
    simp only [] at hc
    rcases hloop : (scale_loop_deployments env
        (KubePatch.mergeScale { spec := some { replicas := some (i32ofUsize n) } })
        items).1 with e | u
    · rw [hloop] at hc
      simp only [List.mem_cons] at hc
      rcases hc with h | h
      · exact Or.inl h
      · rcases scale_loop_deployments_calls env _ items c h with h' | h'
        · exact Or.inr (Or.inl h')
        · exact Or.inr (Or.inr (Or.inl h'))
    · rw [hloop] at hc
      simp only [List.mem_cons, List.mem_append] at hc
      rcases hc with (h | h) | h
      · exact Or.inl h
      · rcases scale_loop_deployments_calls env _ items c h with h' | h'
        · exact Or.inr (Or.inl h')
        · exact Or.inr (Or.inr (Or.inl h'))
      · have := wait_go_calls env (if cw then Scope.all else Scope.namespaced ns) n
          { label_selector := some sel } 0 fuel c h
        exact Or.inr (Or.inr (Or.inr this))

/-- Description of every call in the trace of the `StateFulSet` arm of
`pause_service`. -/
theorem pause_statefulset_trace_mem (env : KubeEnv) (ns sel : String) (n : Nat)
    (cw : Bool) (fuel : Nat) :
    ∀ c ∈ (pause_service env ns sel n .StateFulSet cw fuel).2,
      c = .listStatefulSets (if cw then Scope.all else Scope.namespaced ns)
            { label_selector := some sel } ∨
      (∃ ns1 name1, c = .patchScaleStatefulSet ns1 name1
          (KubePatch.mergeScale { spec := some { replicas := some (i32ofUsize n) } })) ∨
      (∃ ns1 name1, c = .awaitStatefulSetReady ns1 name1 0) ∨
      c = .listPods (if cw then Scope.all else Scope.namespaced ns)
            { label_selector := some sel } := by
  intro c hc
  unfold pause_service at hc
  simp only [get_patch_merge, ListParams.default, ListParams.labels] at hc
  cases hm : env.listStatefulSets (if cw then Scope.all else Scope.namespaced ns)
      { label_selector := some sel } with
  | error e =>
    rw [hm] at hc
    simp only [List.mem_singleton] at hc
    exact Or.inl hc
  | ok items =>
    rw [hm] at hc
    simp only [] at hc
    rcases hloop : (scale_loop_statefulsets env
        (KubePatch.mergeScale { spec := some { replicas := some (i32ofUsize n) } })
        items).1 with e | u
    · rw [hloop] at hc
      simp only [List.mem_cons] at hc
      rcases hc with h | h
      · exact Or.inl h
      · rcases scale_loop_statefulsets_calls env _ items c h with h' | h'
        · exact Or.inr (Or.inl h')
        · exact Or.inr (Or.inr (Or.inl h'))
    · rw [hloop] at hc
      simp only [List.mem_cons, List.mem_append] at hc
      rcases hc with (h | h) | h
      · exact Or.inl h
      · rcases scale_loop_statefulsets_calls env _ items c h with h' | h'
        · exact Or.inr (Or.inl h')
        · exact Or.inr (Or.inr (Or.inl h'))
      · have := wait_go_calls env (if cw then Scope.all else Scope.namespaced ns) n
          { label_selector := some sel } 0 fuel c h
        exact Or.inr (Or.inr (Or.inr this))

/-- When two environments share selector semantics and their pod populations
agree after filtering by the selector, the server-side pod listing they
induce is identical. -/
theorem listPodsModel_congr_filter (env env' : KubeEnv) (sc : Scope) (sel : String)
    (j : Nat) (hsel : env'.selMatches = env.selMatches)
    (h : Except.map (List.filter (env.selMatches sel)) (env'.podsAt sc j)
       = Except.map (List.filter (env.selMatches sel)) (env.podsAt sc j)) :
    listPodsModel env' sc { label_selector := some sel } j
      = listPodsModel env sc { label_selector := some sel } j := by
  unfold listPodsModel
  rw [hsel]
  cases hp : env'.podsAt sc j with
  | error e =>
    cases hq : env.podsAt sc j with
    | error e' =>
      rw [hp, hq] at h
      simp only [Except.map] at h
      cases h
      rfl
    | ok l =>
      rw [hp, hq] at h
      simp only [Except.map] at h
      cases h
  | ok l =>
    cases hq : env.podsAt sc j with
    | error e' =>
      rw [hp, hq] at h
      simp only [Except.map] at h
      cases h
    | ok l' =>
      rw [hp, hq] at h
      simp only [Except.map, Except.ok.injEq] at h
      simp only [h]

/-! ## Claim theorems -/

/-- C9: for the resource kinds DaemonSet and Job, `pause_service` and
`unpause_service_if_needed` return success immediately and issue no
Kubernetes API call (empty trace), leaving observed cluster state
unchanged. -/
theorem daemonset_and_job_are_noops (env : KubeEnv) (ns sel : String) (n : Nat)
    (cw : Bool) (fuel : Nat) :
    pause_service env ns sel n .DaemonSet cw fuel = (.ok (), [])
    ∧ pause_service env ns sel n .Job cw fuel = (.ok (), [])
    ∧ unpause_service_if_needed env ns sel .DaemonSet cw = (.ok (), [])
    ∧ unpause_service_if_needed env ns sel .Job cw = (.ok (), []) :=
  ⟨rfl, rfl, rfl, rfl⟩

/-- C6: when the configured timeout elapses while `on_pause` is in flight,
the call returns the scale-operation error built by
`new_k8s_scale_replicas`, carrying the selector, the target namespace and
the configured timeout value (in its message), and performs no rollback:
every call in the returned trace is one `pause_service` itself would have
issued, with nothing appended after the deadline. -/
theorem on_pause_timeout_reports_and_no_rollback (a : PauseServiceAction)
    (env : KubeEnv) (tns : String) (fuel k : Nat) :
    (a.on_pause env tns fuel (.timedOut k)).1 =
      .error { selector := a.selector, target_namespace := tns,
               requested_replicas := 0,
               message := "Timeout of " ++ toString a.timeout_secs
                 ++ "s exceeded while scaling down service" }
    ∧ ∀ c ∈ (a.on_pause env tns fuel (.timedOut k)).2,
        c ∈ (pause_service env tns a.selector 0 a.k8s_resource_type
              a.is_cluster_wide_resources_allowed fuel).2 := by
  constructor
  · rfl
  · intro c hc
    exact List.take_subset k _ hc

/-- Witness for C6: concrete timed-out invocation. -/
theorem on_pause_timeout_reports_and_no_rollback_witness :
    (pauseActionFix.on_pause envOneDep "ns" 1 (.timedOut 1)).1 =
      .error { selector := pauseActionFix.selector, target_namespace := "ns",
               requested_replicas := 0,
               message := "Timeout of " ++ toString pauseActionFix.timeout_secs
                 ++ "s exceeded while scaling down service" }
    ∧ ApiCall.listDeployments (Scope.namespaced "ns") { label_selector := some "sel" }
        ∈ (pause_service envOneDep "ns" pauseActionFix.selector 0
            pauseActionFix.k8s_resource_type
            pauseActionFix.is_cluster_wide_resources_allowed 1).2 :=
  ⟨(on_pause_timeout_reports_and_no_rollback pauseActionFix envOneDep "ns" 1 1).1,
   (on_pause_timeout_reports_and_no_rollback pauseActionFix envOneDep "ns" 1 1).2
     (ApiCall.listDeployments (Scope.namespaced "ns") { label_selector := some "sel" })
     (by decide)⟩

/-- C3 (counterexample): the claim asserts that the CronJob convergence
predicate with target `false` holds on a resource whose `spec.suspend`
field is absent; on the code it evaluates to `false` there, because the
comparison is `spec.suspend == Some(&suspend)` and `None` differs from
`Some(false)`. -/
theorem cron_suspend_absent_counterexample :
    has_cron_job_suspended_value false (some cronJobNoSuspendField) = false := by
  decide

/-- C3 (amended): `has_cron_job_suspended_value b` is true iff the resource
reports `spec.suspend = Some b`; absence of the field (or of the spec)
makes the predicate false for every `b`, including `b = false`. -/
theorem cron_suspend_predicate_amended (b : Bool) (cj : Option KCronJob) :
    (has_cron_job_suspended_value b cj = true ↔
      (cj.bind (·.spec)).bind (·.suspend) = some b)
    ∧ ((cj.bind (·.spec)).bind (·.suspend) = none →
        has_cron_job_suspended_value b cj = false) := by
  constructor
  · simp [has_cron_job_suspended_value]
  · intro h
    simp [has_cron_job_suspended_value, h]

/-- Witness for C3: the amended statement evaluated on the fixture with an
absent `suspend` field. -/
theorem cron_suspend_predicate_amended_witness :
    ((some cronJobNoSuspendField).bind (·.spec)).bind (·.suspend) = none
    ∧ has_cron_job_suspended_value false (some cronJobNoSuspendField) = false :=
  ⟨rfl, (cron_suspend_predicate_amended false (some cronJobNoSuspendField)).2 rfl⟩

/-- C1: every call issued by `unpause_service_if_needed` for Deployments or
StatefulSets is either the initial list, or a scale patch aimed at a listed
resource whose observed status replica count (absent status counting as 0)
is exactly 0, and every such patch sets the desired replica count to
exactly 1 — resources observed at a non-zero count are never patched, and
no other replica value is ever requested. -/
theorem unpause_rescales_only_zero_observed_to_one (env : KubeEnv)
    (ns sel : String) (cw : Bool)
    (dItems : List KDeployment) (sItems : List KStatefulSet)
    (hd : env.listDeployments (if cw then Scope.all else Scope.namespaced ns)
        { label_selector := some sel } = .ok dItems)
    (hs : env.listStatefulSets (if cw then Scope.all else Scope.namespaced ns)
        { label_selector := some sel } = .ok sItems) :
    (∀ c ∈ (unpause_service_if_needed env ns sel .Deployment cw).2,
        c = .listDeployments (if cw then Scope.all else Scope.namespaced ns)
              { label_selector := some sel } ∨
        ∃ d ∈ dItems, deployment_observed_replicas d = 0 ∧
          ∃ ns1 name1, d.metadata.nspace = some ns1 ∧ d.metadata.name = some name1 ∧
            c = .patchScaleDeployment ns1 name1
                  (KubePatch.mergeScale { spec := some { replicas := some 1 } }))
    ∧ (∀ c ∈ (unpause_service_if_needed env ns sel .StateFulSet cw).2,
        c = .listStatefulSets (if cw then Scope.all else Scope.namespaced ns)
              { label_selector := some sel } ∨
        ∃ s ∈ sItems, statefulset_observed_replicas s = 0 ∧
          ∃ ns1 name1, s.metadata.nspace = some ns1 ∧ s.metadata.name = some name1 ∧
            c = .patchScaleStatefulSet ns1 name1
                  (KubePatch.mergeScale { spec := some { replicas := some 1 } })) := by
  have hone : i32ofUsize 1 = 1 := by decide
  constructor
  · intro c hc
    unfold unpause_service_if_needed at hc
    simp only [get_patch_merge, ListParams.default, ListParams.labels] at hc
    rw [hd] at hc
    simp only [List.mem_cons] at hc
    rcases hc with h | h
    · exact Or.inl h
    · obtain ⟨d, hdmem, hobs, ns1, name1, hns1, hn1, hceq⟩ :=
        unpause_loop_deployments_mem env _ dItems c h
      rw [hone] at hceq
      exact Or.inr ⟨d, hdmem, hobs, ns1, name1, hns1, hn1, hceq⟩
  · intro c hc
    unfold unpause_service_if_needed at hc
    simp only [get_patch_merge, ListParams.default, ListParams.labels] at hc
    rw [hs] at hc
    simp only [List.mem_cons] at hc
    rcases hc with h | h
    · exact Or.inl h
    · obtain ⟨s, hsmem, hobs, ns1, name1, hns1, hn1, hceq⟩ :=
        unpause_loop_statefulsets_mem env _ sItems c h
      rw [hone] at hceq
      exact Or.inr ⟨s, hsmem, hobs, ns1, name1, hns1, hn1, hceq⟩

/-- Witness for C1: on a cluster holding a scaled-to-zero deployment and a
running one, the patch issued for the zero-observed resource satisfies the
characterization. -/
theorem unpause_rescales_only_zero_observed_to_one_witness :
    (ApiCall.patchScaleDeployment "ns" "app0"
        (KubePatch.mergeScale { spec := some { replicas := some 1 } })
      ∈ (unpause_service_if_needed envScaled "ns" "sel" .Deployment false).2)
    ∧ (ApiCall.patchScaleDeployment "ns" "app0"
          (KubePatch.mergeScale { spec := some { replicas := some 1 } })
        = .listDeployments (Scope.namespaced "ns") { label_selector := some "sel" } ∨
      ∃ d ∈ [depZero, depTwo], deployment_observed_replicas d = 0 ∧
        ∃ ns1 name1, d.metadata.nspace = some ns1 ∧ d.metadata.name = some name1 ∧
          ApiCall.patchScaleDeployment "ns" "app0"
              (KubePatch.mergeScale { spec := some { replicas := some 1 } })
            = .patchScaleDeployment ns1 name1
                (KubePatch.mergeScale { spec := some { replicas := some 1 } })) :=
  ⟨by decide,
   (unpause_rescales_only_zero_observed_to_one envScaled "ns" "sel" false
       [depZero, depTwo] [stsZero] rfl rfl).1
     (ApiCall.patchScaleDeployment "ns" "app0"
       (KubePatch.mergeScale { spec := some { replicas := some 1 } }))
     (by decide)⟩

/-- C2 (counterexample): with desired replica count 1, the code patches the
scale subresource to 1 but the per-resource wait still targets ready-replica
count 0 (`has_deployment_ready_replicas(0)` is hard-coded), not 1: the
claim's "awaits ready-replica count equal to n" fails at n = 1. -/
theorem pause_await_target_counterexample :
    (ApiCall.patchScaleDeployment "ns" "app"
        (KubePatch.mergeScale { spec := some { replicas := some 1 } })
      ∈ (pause_service envOneDep "ns" "sel" 1 .Deployment false 1).2)
    ∧ ApiCall.awaitDeploymentReady "ns" "app" 0
        ∈ (pause_service envOneDep "ns" "sel" 1 .Deployment false 1).2
    ∧ ApiCall.awaitDeploymentReady "ns" "app" 1
        ∉ (pause_service envOneDep "ns" "sel" 1 .Deployment false 1).2 :=
  ⟨by decide, by decide, by decide⟩

/-- C2 (amended): for every desired replica count n, `pause_service` patches
each listed Deployment/StatefulSet scale subresource to n, then awaits the
per-resource convergence predicate with ready-replica target 0 (hard-coded,
regardless of n; an absent `ready_replicas` field counts as 0), and the
outcome of every such `await_condition` is discarded: the function's result
and trace are invariant under any change of the await outcomes. -/
theorem pause_patches_to_n_awaits_zero_discards (env : KubeEnv) (ns sel : String)
    (n : Nat) (cw : Bool) (fuel : Nat) :
    (∀ c ∈ (pause_service env ns sel n .Deployment cw fuel).2, ∀ ns1 name1 t,
        c = .awaitDeploymentReady ns1 name1 t → t = 0)
    ∧ (∀ c ∈ (pause_service env ns sel n .Deployment cw fuel).2, ∀ ns1 name1 p,
        c = .patchScaleDeployment ns1 name1 p →
          p = KubePatch.mergeScale { spec := some { replicas := some (i32ofUsize n) } })
    ∧ (∀ f, pause_service { env with awaitCondResult := f } ns sel n .Deployment cw fuel
          = pause_service env ns sel n .Deployment cw fuel)
    ∧ (∀ c ∈ (pause_service env ns sel n .StateFulSet cw fuel).2, ∀ ns1 name1 t,
        c = .awaitStatefulSetReady ns1 name1 t → t = 0)
    ∧ (∀ c ∈ (pause_service env ns sel n .StateFulSet cw fuel).2, ∀ ns1 name1 p,
        c = .patchScaleStatefulSet ns1 name1 p →
          p = KubePatch.mergeScale { spec := some { replicas := some (i32ofUsize n) } })
    ∧ (∀ f, pause_service { env with awaitCondResult := f } ns sel n .StateFulSet cw fuel
          = pause_service env ns sel n .StateFulSet cw fuel)
    ∧ (∀ d : KDeployment, d.status.bind (·.ready_replicas) = none →
        has_deployment_ready_replicas 0 (some d) = true) := by
  refine ⟨?_, ?_, ?_, ?_, ?_, ?_, ?_⟩
  · intro c hc ns1 name1 t hceq
    subst hceq
    rcases pause_deployment_trace_mem env ns sel n cw fuel _ hc with
      h | ⟨a, b, h⟩ | ⟨a, b, h⟩ | h <;> simp_all
  · intro c hc ns1 name1 p hceq
    subst hceq
    rcases pause_deployment_trace_mem env ns sel n cw fuel _ hc with
      h | ⟨a, b, h⟩ | ⟨a, b, h⟩ | h <;> simp_all
  · intro f
    exact pause_service_deployment_congr env { env with awaitCondResult := f }
      ns sel n cw fuel rfl rfl (fun j => rfl)
  · intro c hc ns1 name1 t hceq
    subst hceq
    rcases pause_statefulset_trace_mem env ns sel n cw fuel _ hc with
      h | ⟨a, b, h⟩ | ⟨a, b, h⟩ | h <;> simp_all
  · intro c hc ns1 name1 p hceq
    subst hceq
    rcases pause_statefulset_trace_mem env ns sel n cw fuel _ hc with
      h | ⟨a, b, h⟩ | ⟨a, b, h⟩ | h <;> simp_all
  · intro f
    exact pause_service_statefulset_congr env { env with awaitCondResult := f }
      ns sel n cw fuel rfl rfl (fun j => rfl)
  · intro d h
    simp [has_deployment_ready_replicas, h, show i32ofUsize 0 = 0 from by decide]

/-- Witness for C2: the amended statement evaluated on the one-deployment
fixture with desired size 1. -/
theorem pause_patches_to_n_awaits_zero_discards_witness :
    (0 = 0)
    ∧ pause_service { envOneDep with awaitCondResult := fun _ _ => .error () }
        "ns" "sel" 1 .Deployment false 1
      = pause_service envOneDep "ns" "sel" 1 .Deployment false 1 :=
  ⟨(pause_patches_to_n_awaits_zero_discards envOneDep "ns" "sel" 1 false 1).1
      (ApiCall.awaitDeploymentReady "ns" "app" 0) (by decide) "ns" "app" 0 rfl,
   (pause_patches_to_n_awaits_zero_discards envOneDep "ns" "sel" 1 false 1).2.2.1
      (fun _ _ => .error ())⟩

/-- C8: a label selector matching zero resources of a pausable kind
(Deployment, StatefulSet, CronJob) makes both `pause_service` (desired size
0, the pause path) and `unpause_service_if_needed` return success. -/
theorem empty_selector_match_is_success (env : KubeEnv) (ns sel : String)
    (cw : Bool) (fuel : Nat) :
    (env.listDeployments (if cw then Scope.all else Scope.namespaced ns)
        { label_selector := some sel } = .ok [] →
      (pause_service env ns sel 0 .Deployment cw fuel).1 = .ok ()
      ∧ (unpause_service_if_needed env ns sel .Deployment cw).1 = .ok ())
    ∧ (env.listStatefulSets (if cw then Scope.all else Scope.namespaced ns)
        { label_selector := some sel } = .ok [] →
      (pause_service env ns sel 0 .StateFulSet cw fuel).1 = .ok ()
      ∧ (unpause_service_if_needed env ns sel .StateFulSet cw).1 = .ok ())
    ∧ (env.listCronJobs (if cw then Scope.all else Scope.namespaced ns)
        { label_selector := some sel } = .ok [] →
      (pause_service env ns sel 0 .CronJob cw fuel).1 = .ok ()
      ∧ (unpause_service_if_needed env ns sel .CronJob cw).1 = .ok ()) := by
  refine ⟨fun h => ⟨?_, ?_⟩, fun h => ⟨?_, ?_⟩, fun h => ⟨?_, ?_⟩⟩
  · rw [pause_service_fst_deployment, h]
    simp [scale_loop_deployments]
  · unfold unpause_service_if_needed
    simp only [get_patch_merge, ListParams.default, ListParams.labels]
    rw [h]
    simp [unpause_loop_deployments]
  · rw [pause_service_fst_statefulset, h]
    simp [scale_loop_statefulsets]
  · unfold unpause_service_if_needed
    simp only [get_patch_merge, ListParams.default, ListParams.labels]
    rw [h]
    simp [unpause_loop_statefulsets]
  · unfold pause_service
    simp only [get_patch_suspend, ListParams.default, ListParams.labels]
    rw [h]
    simp [suspend_loop_cron_jobs]
  · unfold unpause_service_if_needed
    simp only [get_patch_suspend, ListParams.default, ListParams.labels]
    rw [h]
    simp [unsuspend_loop_cron_jobs]

/-- Witness for C8: the empty cluster fixture. -/
theorem empty_selector_match_is_success_witness :
    ((pause_service envA "ns" "sel" 0 .Deployment false 1).1 = .ok ()
      ∧ (unpause_service_if_needed envA "ns" "sel" .Deployment false).1 = .ok ())
    ∧ ((pause_service envA "ns" "sel" 0 .StateFulSet false 1).1 = .ok ()
      ∧ (unpause_service_if_needed envA "ns" "sel" .StateFulSet false).1 = .ok ())
    ∧ ((pause_service envA "ns" "sel" 0 .CronJob false 1).1 = .ok ()
      ∧ (unpause_service_if_needed envA "ns" "sel" .CronJob false).1 = .ok ()) :=
  ⟨(empty_selector_match_is_success envA "ns" "sel" false 1).1 rfl,
   (empty_selector_match_is_success envA "ns" "sel" false 1).2.1 rfl,
   (empty_selector_match_is_success envA "ns" "sel" false 1).2.2 rfl⟩

/-- C4 (counterexample): an error from the pod list call stops the
convergence loop early, but is not passed up: `pause_service` still returns
success, because `wait_for_pods_to_be_in_correct_state` returns `()` and its
outcome is discarded. -/
theorem pod_list_error_swallowed_counterexample :
    envPodsFail.podsAt (Scope.namespaced "ns") 0 = .error { msg := "pod list failed" }
    ∧ pause_service envPodsFail "ns" "sel" 0 .Deployment false 1
        = (.ok (),
           [.listDeployments (Scope.namespaced "ns") { label_selector := some "sel" },
            .listPods (Scope.namespaced "ns") { label_selector := some "sel" }]) :=
  ⟨rfl, rfl⟩

/-- C4 (amended): an error returned by the pod list call stops the
pod-population convergence loop early — the loop returns at once, with no
retry of the failed poll — and the error is discarded, never reaching the
caller: the result of `pause_service` is invariant under any change of the
pod populations. -/
theorem pod_list_error_stops_loop_and_never_propagates (env : KubeEnv)
    (pods' : Scope → Nat → Except KubeErr (List KPod)) (ns sel : String)
    (n : Nat) (cw : Bool) (fuel : Nat) (sc : Scope) (lp : ListParams) (i : Nat)
    (e : KubeErr) (h : listPodsModel env sc lp i = .error e) :
    wait_go env sc n lp i (fuel + 1) = (.stoppedOnError, [.listPods sc lp])
    ∧ (pause_service { env with podsAt := pods' } ns sel n .Deployment cw fuel).1
        = (pause_service env ns sel n .Deployment cw fuel).1
    ∧ (pause_service { env with podsAt := pods' } ns sel n .StateFulSet cw fuel).1
        = (pause_service env ns sel n .StateFulSet cw fuel).1 := by
  refine ⟨?_, ?_, ?_⟩
  · unfold wait_go
    rw [h]
  · rw [pause_service_fst_deployment, pause_service_fst_deployment]
    have hl : ({ env with podsAt := pods' } : KubeEnv).listDeployments
        = env.listDeployments := rfl
    rw [hl]
    cases hm : env.listDeployments (if cw then Scope.all else Scope.namespaced ns)
        { label_selector := some sel } with
    | error e' => rfl
    | ok items =>
      simp only []
      rw [scale_loop_deployments_congr env { env with podsAt := pods' } _ rfl items]
  · rw [pause_service_fst_statefulset, pause_service_fst_statefulset]
    have hl : ({ env with podsAt := pods' } : KubeEnv).listStatefulSets
        = env.listStatefulSets := rfl
    rw [hl]
    cases hm : env.listStatefulSets (if cw then Scope.all else Scope.namespaced ns)
        { label_selector := some sel } with
    | error e' => rfl
    | ok items =>
      simp only []
      rw [scale_loop_statefulsets_congr env { env with podsAt := pods' } _ rfl items]

/-- Witness for C4: the failing-pod-list fixture at poll 0. -/
theorem pod_list_error_stops_loop_and_never_propagates_witness :
    listPodsModel envPodsFail (Scope.namespaced "ns")
        { label_selector := some "sel" } 0 = .error { msg := "pod list failed" }
    ∧ wait_go envPodsFail (Scope.namespaced "ns") 0 { label_selector := some "sel" } 0 1
        = (.stoppedOnError,
           [.listPods (Scope.namespaced "ns") { label_selector := some "sel" }]) :=
  ⟨rfl,
   (pod_list_error_stops_loop_and_never_propagates envPodsFail (fun _ _ => .ok [])
       "ns" "sel" 0 false 0 (Scope.namespaced "ns") { label_selector := some "sel" }
       0 { msg := "pod list failed" } rfl).1⟩

/-- C5: when the managed autoscaling controller (Karpenter) is enabled,
`pause_eks_cluster` delegates to its pause routine and returns its outcome;
the trace is exactly the Karpenter call, so the legacy node-group path — pod
listing, pod-based timeout computation, template re-render and targeted
Terraform apply — is never executed. -/
theorem karpenter_branch_skips_legacy (env : EksEnv)
    (h : env.mk_kube_client = .ok ()) :
    (pause_eks_cluster true env).1 = env.karpenter_pause
    ∧ (pause_eks_cluster true env).2 = [.karpenterPause]
    ∧ ∀ s ∈ (pause_eks_cluster true env).2,
        s ≠ .getPods ∧ s ≠ .getRusotoEksClient ∧ s ≠ .shouldUpdateDesiredNodes
        ∧ (∀ k, s ≠ .defineClusterUpgradeTimeout k)
        ∧ (∀ t, s ≠ .renderPausedTeraContext t)
        ∧ (∀ ts, s ≠ .tfPause ts) := by
  have htr : pause_eks_cluster true env
      = (env.karpenter_pause, [.karpenterPause]) := by
    unfold pause_eks_cluster
    rw [h]
    cases hk : env.karpenter_pause with
    | error e => simp
    | ok u => simp
  refine ⟨by rw [htr], by rw [htr], ?_⟩
  intro s hs
  rw [htr] at hs
  simp only [List.mem_singleton] at hs
  subst hs
  refine ⟨by simp, by simp, by simp, fun k => by simp, fun t => by simp,
    fun ts => by simp⟩

/-- Witness for C5: all-succeeding EKS collaborators. -/
theorem karpenter_branch_skips_legacy_witness :
    (pause_eks_cluster true eksEnvOk).1 = eksEnvOk.karpenter_pause
    ∧ (pause_eks_cluster true eksEnvOk).2 = [.karpenterPause] :=
  ⟨(karpenter_branch_skips_legacy eksEnvOk rfl).1,
   (karpenter_branch_skips_legacy eksEnvOk rfl).2.1⟩

/-- C7 (counterexample): the pod-listing read is not the only read in the
orchestrator permitted to fail silently: on this input the AWS EKS client
construction (`get_rusoto_eks_client`, whose `Err` is mapped to `None` at
cluster_pause.rs lines 35-38) fails, yet the pause completes successfully. -/
theorem eks_client_failure_also_silent_counterexample :
    eksEnvBestEffort.get_rusoto_eks_client = .error "cannot build eks client"
    ∧ (pause_eks_cluster false eksEnvBestEffort).1 = .ok () :=
  ⟨rfl, rfl⟩

/-- C7 (amended): in the legacy branch, a pod-listing failure does not abort
the pause — the run is identical to one where the listing returned an empty
list — and the pod listing and the best-effort EKS client construction are
the only two operations whose failure is absorbed: a failure of the
kube-client construction, of the node-group sizing, of the template render
or of the targeted apply each aborts the pause with that error. -/
theorem legacy_best_effort_reads (env : EksEnv) (e : String) :
    (env.get_pods = .error e →
      pause_eks_cluster false env
        = pause_eks_cluster false { env with get_pods := .ok [] })
    ∧ (env.mk_kube_client = .ok () →
       env.should_update_desired_nodes (eks_client_available env) = .ok () →
       env.eks_tera_context
           (env.define_cluster_upgrade_timeout (eks_pods_list env)).1 = .ok () →
       env.tf_pause ["aws_eks_node_group."] = .ok () →
       (pause_eks_cluster false env).1 = .ok ())
    ∧ (env.mk_kube_client = .error e →
        pause_eks_cluster false env = (.error e, []))
    ∧ (env.mk_kube_client = .ok () →
       env.should_update_desired_nodes (eks_client_available env) = .error e →
       (pause_eks_cluster false env).1 = .error e)
    ∧ (env.mk_kube_client = .ok () →
       env.should_update_desired_nodes (eks_client_available env) = .ok () →
       env.eks_tera_context
           (env.define_cluster_upgrade_timeout (eks_pods_list env)).1 = .error e →
       (pause_eks_cluster false env).1 = .error e)
    ∧ (env.mk_kube_client = .ok () →
       env.should_update_desired_nodes (eks_client_available env) = .ok () →
       env.eks_tera_context
           (env.define_cluster_upgrade_timeout (eks_pods_list env)).1 = .ok () →
       env.tf_pause ["aws_eks_node_group."] = .error e →
       (pause_eks_cluster false env).1 = .error e) := by
  refine ⟨?_, ?_, ?_, ?_, ?_, ?_⟩
  · intro h
    simp [pause_eks_cluster, eks_pods_list, eks_client_available, h]
  · intro h1 h2 h3 h4
    simp [pause_eks_cluster, h1, h2, h3, h4]
  · intro h1
    simp [pause_eks_cluster, h1]
  · intro h1 h2
    simp [pause_eks_cluster, h1, h2]
  · intro h1 h2 h3
    simp [pause_eks_cluster, h1, h2, h3]
  · intro h1 h2 h3 h4
    simp [pause_eks_cluster, h1, h2, h3, h4]

/-- Witness for C7: the double-best-effort-failure fixture. -/
theorem legacy_best_effort_reads_witness :
    pause_eks_cluster false eksEnvBestEffort
        = pause_eks_cluster false { eksEnvBestEffort with get_pods := .ok [] }
    ∧ (pause_eks_cluster false eksEnvBestEffort).1 = .ok () :=
  ⟨(legacy_best_effort_reads eksEnvBestEffort "pod listing failed").1 rfl,
   (legacy_best_effort_reads eksEnvBestEffort "pod listing failed").2.1
     rfl rfl rfl rfl⟩

/-- One unfolding step of the pod-wait loop with fuel left. -/
theorem wait_go_succ (env : KubeEnv) (sc : Scope) (desired_size : Nat)
    (lp : ListParams) (i fuel : Nat) :
    wait_go env sc desired_size lp i (fuel + 1)
      = match listPodsModel env sc lp i with
        | .error _ => (.stoppedOnError, [.listPods sc lp])
        | .ok pods =>
          if pods.length == desired_size then (.reached, [.listPods sc lp])
          else ((wait_go env sc desired_size lp (i + 1) fuel).1,
            .listPods sc lp :: (wait_go env sc desired_size lp (i + 1) fuel).2) :=
  rfl

/-- C10: every pod poll issued by the convergence loop run after patching
Deployments/StatefulSets uses exactly the scope and the label-selector
`ListParams` built by `get_patch_merge`; at each poll the loop compares the
length of the selector-filtered pod list against `desired_size` for
equality; and pods in scope that do not match the selector never affect the
run: replacing the pod populations by any populations with the same
selector-filtered content leaves result and trace unchanged. -/
theorem pod_wait_counts_only_selector_matching (env : KubeEnv)
    (pods' : Scope → Nat → Except KubeErr (List KPod)) (ns sel : String)
    (n : Nat) (cw : Bool) (fuel : Nat)
    (hagree : ∀ j, Except.map (List.filter (env.selMatches sel))
          (pods' (if cw then Scope.all else Scope.namespaced ns) j)
        = Except.map (List.filter (env.selMatches sel))
          (env.podsAt (if cw then Scope.all else Scope.namespaced ns) j)) :
    (∀ c ∈ (pause_service env ns sel n .Deployment cw fuel).2, ∀ sc lp,
        c = .listPods sc lp →
          sc = (if cw then Scope.all else Scope.namespaced ns)
          ∧ lp = { label_selector := some sel })
    ∧ (∀ pods i fuel',
        env.podsAt (if cw then Scope.all else Scope.namespaced ns) i = .ok pods →
        (wait_go env (if cw then Scope.all else Scope.namespaced ns) n
            { label_selector := some sel } i (fuel' + 1)).1
          = if (pods.filter (env.selMatches sel)).length == n then .reached
            else (wait_go env (if cw then Scope.all else Scope.namespaced ns) n
                { label_selector := some sel } (i + 1) fuel').1)
    ∧ pause_service { env with podsAt := pods' } ns sel n .Deployment cw fuel
        = pause_service env ns sel n .Deployment cw fuel
    ∧ (∀ c ∈ (pause_service env ns sel n .StateFulSet cw fuel).2, ∀ sc lp,
        c = .listPods sc lp →
          sc = (if cw then Scope.all else Scope.namespaced ns)
          ∧ lp = { label_selector := some sel })
    ∧ pause_service { env with podsAt := pods' } ns sel n .StateFulSet cw fuel
        = pause_service env ns sel n .StateFulSet cw fuel := by
  refine ⟨?_, ?_, ?_, ?_, ?_⟩
  · intro c hc sc lp hceq
    subst hceq
    rcases pause_deployment_trace_mem env ns sel n cw fuel _ hc with
      h | ⟨a, b, h⟩ | ⟨a, b, h⟩ | h <;> simp_all
  · intro pods i fuel' h
    rw [wait_go_succ]
    rw [show listPodsModel env (if cw then Scope.all else Scope.namespaced ns)
        { label_selector := some sel } i = .ok (pods.filter (env.selMatches sel))
      from by simp [listPodsModel, h]]
    by_cases hl : (pods.filter (env.selMatches sel)).length == n
    · simp [hl]
    · simp [hl]
  · exact pause_service_deployment_congr env { env with podsAt := pods' }
      ns sel n cw fuel rfl rfl
      (fun j => listPodsModel_congr_filter env { env with podsAt := pods' }
        (if cw then Scope.all else Scope.namespaced ns) sel j rfl (hagree j))
  · intro c hc sc lp hceq
    subst hceq
    rcases pause_statefulset_trace_mem env ns sel n cw fuel _ hc with
      h | ⟨a, b, h⟩ | ⟨a, b, h⟩ | h <;> simp_all
  · exact pause_service_statefulset_congr env { env with podsAt := pods' }
      ns sel n cw fuel rfl rfl
      (fun j => listPodsModel_congr_filter env { env with podsAt := pods' }
        (if cw then Scope.all else Scope.namespaced ns) sel j rfl (hagree j))

/-- Witness for C10: dropping the non-matching pod from `envMatcher` leaves
a pause run unchanged. -/
theorem pod_wait_counts_only_selector_matching_witness :
    pause_service { envMatcher with podsAt := podsOnlySel } "ns" "sel" 0
        .Deployment false 2
      = pause_service envMatcher "ns" "sel" 0 .Deployment false 2 :=
  (pod_wait_counts_only_selector_matching envMatcher podsOnlySel "ns" "sel" 0
      false 2 (fun _ => rfl)).2.2.1

end Qovery
